import Mathlib

/-!
Verification of the `synthesizer` documentation-notebook repository.

The repository consists of three Jupyter notebooks (tutorial glue code for
the external `synthesizer` astrophysics library).  We embed the Python
programs contained in the notebooks' code cells as abstract syntax trees,
give them a trace semantics parameterised by an environment oracle (which
fixes the trip count of each data-dependent loop and the outcome of each
branch), and prove structural and behavioural properties of the three
concrete notebook programs:

* `gridLinesCells`   — "Lines from Grid objects"          (src/unnamed/part_000)
* `galaxyFactoryCells` — "Particle vs Parametric"         (src/unnamed/part_001)
* `galaxyLinesCells` — "Lines from Galaxy objects"        (docs/source/lines/galaxy_lines.ipynb)

The loops that compute line ratios and BPT-diagram points are additionally
embedded as explicit state-passing Lean functions over an abstract library
interface, so that their list-alignment invariants can be proved.
-/

namespace Synth

/-- Python expressions, restricted to the forms occurring in the notebooks.
`fmt` stands for an f-string; only the names of the interpolated variables
are retained (the surrounding literal text and format specs carry no
program behaviour). -/
inductive Expr where
  | numLit (text : String)
  | strLit (s : String)
  | boolLit (b : Bool)
  | noneLit
  | var (x : String)
  | attrGet (obj : Expr) (field : String)
  | tuple (elems : List Expr)
  | listLit (elems : List Expr)
  | dictLit (keys : List String) (vals : List Expr)
  | call (fn : Expr) (args : List Expr)
  | kw (name : String) (val : Expr)
  | subscript (obj : Expr) (index : Expr)
  | binop (op : String) (lhs rhs : Expr)
  | fmt (reads : List String)

/-- Python statements.  The type deliberately includes control-flow and
definition forms that the notebooks could have used but do not
(`whileLoop`, `ifStmt`, `tryExcept`, `funcDef`, `classDef`, attribute and
subscript assignment), so that their absence is a non-vacuous property of
the concrete programs. -/
inductive Stmt where
  | imp (module : String) (binds : List String)
  | assign (targets : List String) (rhs : Expr)
  | attrAssign (obj : Expr) (field : String) (rhs : Expr)
  | subscriptAssign (obj : Expr) (index : Expr) (rhs : Expr)
  | exprStmt (e : Expr)
  | forLoop (vars : List String) (iter : Expr) (body : List Stmt)
  | whileLoop (cond : Expr) (body : List Stmt)
  | ifStmt (cond : Expr) (thenB elseB : List Stmt)
  | tryExcept (body handler : List Stmt)
  | funcDef (name : String) (params : List String) (body : List Stmt)
  | classDef (name : String) (body : List Stmt)

/-- A notebook is a list of code cells; a cell is a list of statements. -/
abbrev Cell := List Stmt

/-- The flat program of a notebook: its cells run in order. -/
def progOf (cells : List Cell) : List Stmt := cells.flatten

/-- Python builtins read by the notebooks without ever being bound. -/
def builtinNames : List String := ["print", "enumerate", "type"]

/-- `pre` is a prefix of `s` (computed on the character lists, so that it
evaluates inside the kernel). -/
def strStartsWith (s pre : String) : Bool := pre.data.isPrefixOf s.data

/-- The callee of a call event, classified by syntactic shape:
matplotlib calls, numpy calls, builtins, `.append` on a local list,
library methods on a bound object, and top-level library callables. -/
inductive Callee where
  | plt (method : String)
  | np (method : String)
  | builtin (name : String)
  | listAppend (target : String)
  | libMethod (recv : String) (method : String)
  | libFun (name : String)
  | opaqueCall
  deriving DecidableEq, Repr

/-- Classify the function position of a call. -/
def classifyCallee : Expr → Callee
  | .var f => if builtinNames.contains f then .builtin f else .libFun f
  | .attrGet (.var "plt") m => .plt m
  | .attrGet (.var "np") m => .np m
  | .attrGet (.var v) m =>
      if m == "append" then .listAppend v else .libMethod v m
  | _ => .opaqueCall

mutual
/-- The call events performed when evaluating an expression, in Python's
left-to-right evaluation order (callee, then arguments, then the call
itself). -/
def exprEvents : Expr → List Callee
  | .numLit _ => []
  | .strLit _ => []
  | .boolLit _ => []
  | .noneLit => []
  | .var _ => []
  | .attrGet obj _ => exprEvents obj
  | .tuple es => exprListEvents es
  | .listLit es => exprListEvents es
  | .dictLit _ vs => exprListEvents vs
  | .call fn args => exprEvents fn ++ exprListEvents args ++ [classifyCallee fn]
  | .kw _ v => exprEvents v
  | .subscript obj idx => exprEvents obj ++ exprEvents idx
  | .binop _ a b => exprEvents a ++ exprEvents b
  | .fmt _ => []

def exprListEvents : List Expr → List Callee
  | [] => []
  | e :: es => exprEvents e ++ exprListEvents es
end

/-- The environment oracle abstracting the external library's data: it
fixes the trip count of each data-dependent loop (e.g. the length of
`grid.metallicity`) and the outcome of each branch condition. -/
structure Oracle where
  iterLen : Expr → Nat
  branch : Expr → Bool

mutual
/-- The sequence of call events performed by a statement when no call
raises, under environment oracle `o`.  A loop's body trace is repeated
once per iteration. -/
def stmtTrace (o : Oracle) : Stmt → List Callee
  | .imp _ _ => []
  | .assign _ rhs => exprEvents rhs
  | .attrAssign obj _ rhs => exprEvents obj ++ exprEvents rhs
  | .subscriptAssign obj idx rhs => exprEvents obj ++ exprEvents idx ++ exprEvents rhs
  | .exprStmt e => exprEvents e
  | .forLoop _ iter body =>
      exprEvents iter ++ (List.replicate (o.iterLen iter) (blockTrace o body)).flatten
  | .whileLoop cond body =>
      exprEvents cond ++ (List.replicate (o.iterLen cond) (blockTrace o body)).flatten
  | .ifStmt cond thenB elseB =>
      exprEvents cond ++ (if o.branch cond then blockTrace o thenB else blockTrace o elseB)
  | .tryExcept body _ => blockTrace o body
  | .funcDef _ _ _ => []
  | .classDef _ _ => []

def blockTrace (o : Oracle) : List Stmt → List Callee
  | [] => []
  | s :: rest => stmtTrace o s ++ blockTrace o rest
end

mutual
/-- All call events occurring syntactically in a statement (loop bodies and
both branches counted once).  Every event of every trace of the statement
is among these. -/
def stmtEvents : Stmt → List Callee
  | .imp _ _ => []
  | .assign _ rhs => exprEvents rhs
  | .attrAssign obj _ rhs => exprEvents obj ++ exprEvents rhs
  | .subscriptAssign obj idx rhs => exprEvents obj ++ exprEvents idx ++ exprEvents rhs
  | .exprStmt e => exprEvents e
  | .forLoop _ iter body => exprEvents iter ++ blockEvents body
  | .whileLoop cond body => exprEvents cond ++ blockEvents body
  | .ifStmt cond thenB elseB => exprEvents cond ++ blockEvents thenB ++ blockEvents elseB
  | .tryExcept body handler => blockEvents body ++ blockEvents handler
  | .funcDef _ _ body => blockEvents body
  | .classDef _ body => blockEvents body

def blockEvents : List Stmt → List Callee
  | [] => []
  | s :: rest => stmtEvents s ++ blockEvents rest
end

mutual
/-- A statement is straight-line: no loop and no branch (a `tryExcept`
with straight-line blocks is still permitted here, making the notion as
liberal as possible). -/
def straightStmt : Stmt → Bool
  | .forLoop _ _ _ => false
  | .whileLoop _ _ => false
  | .ifStmt _ _ _ => false
  | .tryExcept body handler => straightBlock body && straightBlock handler
  | .funcDef _ _ body => straightBlock body
  | .classDef _ body => straightBlock body
  | _ => true

def straightBlock : List Stmt → Bool
  | [] => true
  | s :: rest => straightStmt s && straightBlock rest
end

mutual
/-- A statement is branch-free: its only control flow is `for` loops
(no `while`, no `if`, no `try`, no function or class definitions). -/
def branchFreeStmt : Stmt → Bool
  | .forLoop _ _ body => branchFreeBlock body
  | .whileLoop _ _ => false
  | .ifStmt _ _ _ => false
  | .tryExcept _ _ => false
  | .funcDef _ _ _ => false
  | .classDef _ _ => false
  | _ => true

def branchFreeBlock : List Stmt → Bool
  | [] => true
  | s :: rest => branchFreeStmt s && branchFreeBlock rest
end

mutual
/-- Number of `for` loops occurring in a statement. -/
def forLoopCountStmt : Stmt → Nat
  | .forLoop _ _ body => 1 + forLoopCountBlock body
  | .whileLoop _ body => forLoopCountBlock body
  | .ifStmt _ t e => forLoopCountBlock t + forLoopCountBlock e
  | .tryExcept body handler => forLoopCountBlock body + forLoopCountBlock handler
  | .funcDef _ _ body => forLoopCountBlock body
  | .classDef _ body => forLoopCountBlock body
  | _ => 0

def forLoopCountBlock : List Stmt → Nat
  | [] => 0
  | s :: rest => forLoopCountStmt s + forLoopCountBlock rest
end

/-!  Exception semantics.  A call either succeeds or raises, as decided by
the predicate `raises`; an uncaught exception aborts execution.  `runStmt`
is the compositional interpreter (in which `tryExcept` does catch), and
`propagate` is the "first raising call aborts everything" behaviour. -/

/-- Sequencing of two exception-propagating computations. -/
def seqE (a b : Except Callee (List Callee)) : Except Callee (List Callee) :=
  match a with
  | .error e => .error e
  | .ok evs =>
      match b with
      | .error e => .error e
      | .ok evs2 => .ok (evs ++ evs2)

/-- Outcome of performing a list of calls in order when a raising call
aborts execution: the first raising event, or the whole list. -/
def propagate (raises : Callee → Bool) (evs : List Callee) :
    Except Callee (List Callee) :=
  match evs.find? raises with
  | some e => .error e
  | none => .ok evs

/-- Run the same loop-body outcome `n` times in sequence (an exception in
the body aborts the loop). -/
def repeatE (n : Nat) (a : Except Callee (List Callee)) : Except Callee (List Callee) :=
  match n with
  | 0 => .ok []
  | n + 1 => seqE a (repeatE n a)

mutual
/-- Compositional exception-aware interpreter: result is the full event
trace, or the raising event of an uncaught exception.  A `tryExcept`
catches any exception of its body and runs the handler instead. -/
def runStmt (raises : Callee → Bool) (o : Oracle) : Stmt → Except Callee (List Callee)
  | .imp _ _ => .ok []
  | .assign _ rhs => propagate raises (exprEvents rhs)
  | .attrAssign obj _ rhs => propagate raises (exprEvents obj ++ exprEvents rhs)
  | .subscriptAssign obj idx rhs =>
      propagate raises (exprEvents obj ++ exprEvents idx ++ exprEvents rhs)
  | .exprStmt e => propagate raises (exprEvents e)
  | .forLoop _ iter body =>
      seqE (propagate raises (exprEvents iter))
        (repeatE (o.iterLen iter) (runBlock raises o body))
  | .whileLoop cond body =>
      seqE (propagate raises (exprEvents cond))
        (repeatE (o.iterLen cond) (runBlock raises o body))
  | .ifStmt cond thenB elseB =>
      seqE (propagate raises (exprEvents cond))
        (if o.branch cond then runBlock raises o thenB else runBlock raises o elseB)
  | .tryExcept body handler =>
      match runBlock raises o body with
      | .ok evs => .ok evs
      | .error _ => runBlock raises o handler
  | .funcDef _ _ _ => .ok []
  | .classDef _ _ => .ok []

def runBlock (raises : Callee → Bool) (o : Oracle) : List Stmt → Except Callee (List Callee)
  | [] => .ok []
  | s :: rest => seqE (runStmt raises o s) (runBlock raises o rest)
end

mutual
/-- No `try`/`except` occurs anywhere in the statement. -/
def noTryStmt : Stmt → Bool
  | .tryExcept _ _ => false
  | .forLoop _ _ body => noTryBlock body
  | .whileLoop _ body => noTryBlock body
  | .ifStmt _ t e => noTryBlock t && noTryBlock e
  | .funcDef _ _ body => noTryBlock body
  | .classDef _ body => noTryBlock body
  | _ => true

def noTryBlock : List Stmt → Bool
  | [] => true
  | s :: rest => noTryStmt s && noTryBlock rest
end

open Expr Stmt in
/-- The code cells of the "Lines from `Grid` objects" notebook
(src/unnamed/part_000), cell by cell and statement by statement. -/
def gridLinesCells : List Cell :=
  [ -- cell 1: imports
    [ imp "matplotlib.pyplot" ["plt"],
      imp "numpy" ["np"],
      imp "synthesizer.line_ratios" ["line_ratios"],
      imp "synthesizer.grid" ["Grid"],
      imp "synthesizer.line" ["get_diagram_labels"] ],
    -- cell 2: print line_ratios module contents
    [ exprStmt (call (var "print") [attrGet (var "line_ratios") "Ha"]),
      exprStmt (call (var "print") [attrGet (var "line_ratios") "available_ratios"]),
      exprStmt (call (var "print") [attrGet (var "line_ratios") "available_diagrams"]) ],
    -- cell 3: initialise the grid
    [ assign ["grid_dir"] (strLit "../../../tests/test_grid"),
      assign ["grid_name"] (strLit "test_grid"),
      assign ["grid"] (call (var "Grid") [var "grid_name", kw "grid_dir" (var "grid_dir")]) ],
    -- cell 4: available lines
    [ exprStmt (call (var "print") [attrGet (var "grid") "available_lines"]) ],
    -- cell 5: print the grid
    [ exprStmt (call (var "print") [var "grid"]) ],
    -- cell 6: a single line at a grid point
    [ assign ["log10age"] (numLit "6.0"),
      assign ["metallicity"] (numLit "0.01"),
      assign ["grid_point"] (call (attrGet (var "grid") "get_grid_point")
        [tuple [var "log10age", var "metallicity"]]),
      assign ["line_id"] (attrGet (var "line_ratios") "Hb"),
      assign ["line"] (call (attrGet (var "grid") "get_line")
        [var "grid_point", var "line_id"]),
      exprStmt (call (var "print") [var "line"]) ],
    -- cell 7: a combination of lines
    [ assign ["line"] (call (attrGet (var "grid") "get_line")
        [var "grid_point",
         listLit [attrGet (var "line_ratios") "Hb",
                  attrGet (var "line_ratios") "O3r",
                  attrGet (var "line_ratios") "O3b"]]),
      exprStmt (call (var "print") [var "line"]) ],
    -- cell 8: a LineCollection
    [ assign ["lines"] (call (attrGet (var "grid") "get_lines") [var "grid_point"]),
      exprStmt (call (var "print") [var "lines"]) ],
    -- cell 9: predefined ratios, then a loop over all of them
    [ assign ["ratio_id"] (strLit "BalmerDecrement"),
      assign ["ratio"] (call (attrGet (var "lines") "get_ratio") [var "ratio_id"]),
      exprStmt (call (var "print") [fmt ["ratio_id", "ratio"]]),
      forLoop ["ratio_id"] (attrGet (var "lines") "available_ratios")
        [ assign ["ratio"] (call (attrGet (var "lines") "get_ratio") [var "ratio_id"]),
          exprStmt (call (var "print") [fmt ["ratio_id", "ratio"]]) ] ],
    -- cell 10: ratios of arbitrary sets of lines
    [ exprStmt (call (attrGet (var "lines") "get_ratio")
        [listLit [strLit "Ne 4 1601.45A", strLit "He 2 1640.41A"]]),
      exprStmt (call (attrGet (var "lines") "get_ratio")
        [listLit [strLit "Ne 4 1601.45A, He 2 1640.41A", strLit "O 3 1660.81A"]]) ],
    -- cell 11: the R23 metallicity loop and its plot
    [ assign ["ratio_id"] (strLit "R23"),
      assign ["ia"] (numLit "0"),
      assign ["ratios"] (listLit []),
      forLoop ["iZ", "Z"] (call (var "enumerate") [attrGet (var "grid") "metallicity"])
        [ assign ["grid_point"] (tuple [var "ia", var "iZ"]),
          assign ["lines"] (call (attrGet (var "grid") "get_lines") [var "grid_point"]),
          exprStmt (call (attrGet (var "ratios") "append")
            [call (attrGet (var "lines") "get_ratio") [var "ratio_id"]]) ],
      assign ["Zsun"] (binop "/" (attrGet (var "grid") "metallicity") (numLit "0.0124")),
      exprStmt (call (attrGet (var "plt") "plot") [var "Zsun", var "ratios"]),
      exprStmt (call (attrGet (var "plt") "xlim") [listLit [numLit "0.01", numLit "1"]]),
      exprStmt (call (attrGet (var "plt") "ylim") [listLit [numLit "1", numLit "20"]]),
      exprStmt (call (attrGet (var "plt") "xscale") [strLit "log"]),
      exprStmt (call (attrGet (var "plt") "yscale") [strLit "log"]),
      exprStmt (call (attrGet (var "plt") "xlabel") [strLit "$Z/Z_\x7b\\odot\x7d$"]),
      exprStmt (call (attrGet (var "plt") "ylabel") [fmt ["ratio_id"]]),
      exprStmt (call (attrGet (var "plt") "show") []) ],
    -- cell 12: the BPT diagram loop and its plot
    [ assign ["diagram_id"] (strLit "BPT-NII"),
      assign ["ia"] (numLit "0"),
      assign ["x"] (listLit []),
      assign ["y"] (listLit []),
      forLoop ["iZ", "Z"] (call (var "enumerate") [attrGet (var "grid") "metallicity"])
        [ assign ["grid_point"] (tuple [var "ia", var "iZ"]),
          assign ["lines"] (call (attrGet (var "grid") "get_lines") [var "grid_point"]),
          assign ["x_", "y_"] (call (attrGet (var "lines") "get_diagram") [var "diagram_id"]),
          exprStmt (call (attrGet (var "x") "append") [var "x_"]),
          exprStmt (call (attrGet (var "y") "append") [var "y_"]) ],
      assign ["logNII_Ha"] (call (attrGet (var "np") "arange")
        [numLit "-2.0", numLit "1.0", numLit "0.01"]),
      assign ["logOIII_Hb"] (call (attrGet (var "line_ratios") "get_bpt_kewley01")
        [var "logNII_Ha"]),
      exprStmt (call (attrGet (var "plt") "plot")
        [binop "**" (numLit "10") (var "logNII_Ha"),
         binop "**" (numLit "10") (var "logOIII_Hb"),
         kw "c" (strLit "k"), kw "lw" (strLit "2"), kw "alpha" (numLit "0.3")]),
      exprStmt (call (attrGet (var "plt") "plot") [var "x", var "y"]),
      exprStmt (call (attrGet (var "plt") "xlim") [listLit [numLit "0.01", numLit "10"]]),
      exprStmt (call (attrGet (var "plt") "ylim") [listLit [numLit "0.05", numLit "20"]]),
      exprStmt (call (attrGet (var "plt") "xscale") [strLit "log"]),
      exprStmt (call (attrGet (var "plt") "yscale") [strLit "log"]),
      assign ["xlabel", "ylabel"] (call (var "get_diagram_labels") [var "diagram_id"]),
      exprStmt (call (attrGet (var "plt") "xlabel") [fmt ["xlabel"]]),
      exprStmt (call (attrGet (var "plt") "ylabel") [fmt ["ylabel"]]),
      exprStmt (call (attrGet (var "plt") "show") []) ] ]

/-- The flat program of the grid-lines notebook. -/
def gridLinesProg : List Stmt := progOf gridLinesCells

open Expr Stmt in
/-- The code cells of the "Particle vs Parametric" galaxy-factory notebook
(src/unnamed/part_001). -/
def galaxyFactoryCells : List Cell :=
  [ -- cell 1: imports, grid, SFH/ZH and the two Stars objects
    [ imp "numpy" ["np"],
      imp "synthesizer.grid" ["Grid"],
      imp "synthesizer.parametric" ["SFH", "ZDist"],
      imp "synthesizer.parametric" ["ParametricStars"],
      imp "synthesizer.particle.stars" ["sample_sfhz"],
      imp "unyt" ["Myr"],
      assign ["grid_name"] (strLit "test_grid"),
      assign ["grid_dir"] (strLit "../../../tests/test_grid/"),
      assign ["grid"] (call (var "Grid") [var "grid_name", kw "grid_dir" (var "grid_dir")]),
      assign ["zh"] (call (attrGet (var "ZDist") "DeltaConstant")
        [kw "metallicity" (numLit "0.01")]),
      assign ["sfh_p"] (dictLit ["duration"] [binop "*" (numLit "100") (var "Myr")]),
      assign ["sfh"] (call (attrGet (var "SFH") "Constant")
        [kw "duration" (binop "*" (numLit "100") (var "Myr"))]),
      assign ["param_stars"] (call (var "ParametricStars")
        [attrGet (var "grid") "log10age",
         attrGet (var "grid") "metallicity",
         kw "sf_hist" (var "sfh"),
         kw "metal_dist" (var "zh"),
         kw "initial_mass" (binop "**" (numLit "10") (numLit "9"))]),
      assign ["n"] (numLit "10000"),
      assign ["part_stars"] (call (var "sample_sfhz")
        [kw "sfzh" (attrGet (var "param_stars") "sfzh"),
         kw "log10ages" (attrGet (var "param_stars") "log10ages"),
         kw "log10metallicities" (attrGet (var "param_stars") "log10metallicities"),
         kw "nstar" (var "n"),
         kw "current_masses" (call (attrGet (var "np") "full")
           [var "n", binop "/" (binop "**" (numLit "10") (numLit "8.7")) (var "n")]),
         kw "redshift" (numLit "1"),
         kw "initial_mass" (binop "**" (numLit "10") (numLit "6"))]),
      exprStmt (call (var "print") [call (var "type") [var "param_stars"]]),
      exprStmt (call (var "print") [call (var "type") [var "part_stars"]]) ],
    -- cell 2: the Galaxy factory function
    [ imp "synthesizer" ["Galaxy"],
      assign ["part_gal"] (call (var "Galaxy")
        [kw "stars" (var "part_stars"), kw "gas" noneLit,
         kw "black_holes" noneLit, kw "redshift" (numLit "1")]),
      exprStmt (call (var "print") [var "part_gal"]),
      exprStmt (call (var "print") []),
      assign ["param_gal"] (call (var "Galaxy")
        [kw "stars" (var "param_stars"), kw "redshift" (numLit "1")]),
      exprStmt (call (var "print") [var "param_gal"]) ],
    -- cell 3: explicit particle Galaxy
    [ imp "synthesizer.particle" ["Galaxy"],
      assign ["part_gal"] (call (var "Galaxy")
        [kw "stars" (var "part_stars"), kw "gas" noneLit,
         kw "black_holes" noneLit, kw "redshift" (numLit "1")]),
      exprStmt (call (var "print") [var "part_gal"]) ],
    -- cell 4: explicit parametric Galaxy
    [ imp "synthesizer.parametric" ["Galaxy"],
      assign ["param_gal"] (call (var "Galaxy")
        [kw "stars" (var "param_stars"), kw "redshift" (numLit "1")]),
      exprStmt (call (var "print") [var "param_gal"]) ] ]

/-- The flat program of the galaxy-factory notebook. -/
def galaxyFactoryProg : List Stmt := progOf galaxyFactoryCells

open Expr Stmt in
/-- The code cells of the "Lines from `Galaxy` objects" notebook
(src/docs/source/lines/galaxy_lines.ipynb). -/
def galaxyLinesCells : List Cell :=
  [ -- cell 1: parametric stars, emission model, spectra then lines
    [ imp "synthesizer.line_ratios" ["line_ratios"],
      imp "synthesizer.emission_models" ["BimodalPacmanEmission"],
      imp "synthesizer.emission_models.attenuation" ["PowerLaw"],
      imp "synthesizer.emission_models.dust.emission" ["Blackbody"],
      imp "synthesizer.grid" ["Grid"],
      imp "synthesizer.parametric" ["SFH", "Stars", "ZDist"],
      imp "unyt" ["Myr", "kelvin"],
      assign ["grid_dir"] (strLit "../../../tests/test_grid"),
      assign ["grid_name"] (strLit "test_grid"),
      assign ["grid"] (call (var "Grid") [var "grid_name", kw "grid_dir" (var "grid_dir")]),
      assign ["stellar_mass"] (binop "**" (numLit "10") (numLit "12")),
      assign ["sfh"] (call (attrGet (var "SFH") "Constant")
        [kw "duration" (binop "*" (numLit "100") (var "Myr"))]),
      assign ["metal_dist"] (call (attrGet (var "ZDist") "Normal")
        [kw "mean" (numLit "0.01"), kw "sigma" (numLit "0.05")]),
      assign ["stars"] (call (var "Stars")
        [attrGet (var "grid") "log10age",
         attrGet (var "grid") "metallicity",
         kw "sf_hist" (var "sfh"),
         kw "metal_dist" (var "metal_dist"),
         kw "initial_mass" (var "stellar_mass")]),
      assign ["model"] (call (var "BimodalPacmanEmission")
        [kw "grid" (var "grid"),
         kw "tau_v_ism" (numLit "0.5"),
         kw "tau_v_nebular" (numLit "0.7"),
         kw "dust_curve_ism" (call (var "PowerLaw") [kw "slope" (numLit "-1.3")]),
         kw "dust_curve_nebular" (call (var "PowerLaw") [kw "slope" (numLit "-0.7")]),
         kw "dust_emission_ism" (call (var "Blackbody")
           [kw "temperature" (binop "*" (numLit "100") (var "kelvin"))]),
         kw "dust_emission_nebular" (call (var "Blackbody")
           [kw "temperature" (binop "*" (numLit "30") (var "kelvin"))]),
         kw "fesc" (numLit "0.2"),
         kw "fesc_ly_alpha" (numLit "0.9")]),
      exprStmt (call (attrGet (var "stars") "get_spectra") [var "model"]),
      assign ["lines"] (call (attrGet (var "stars") "get_lines")
        [tuple [attrGet (var "line_ratios") "Hb",
                attrGet (var "line_ratios") "O3r",
                attrGet (var "line_ratios") "O3b"],
         var "model"]),
      exprStmt (call (var "print")
        [subscript (attrGet (var "stars") "lines") (strLit "emergent")]) ],
    -- cell 2: particle stars from CAMELS data, integrated and per-particle lines
    [ imp "synthesizer.emission_models" ["PacmanEmission"],
      imp "synthesizer.load_data.load_camels" ["load_CAMELS_IllustrisTNG"],
      assign ["stars"] (attrGet
        (subscript (call (var "load_CAMELS_IllustrisTNG")
          [strLit "../../../tests/data/",
           kw "snap_name" (strLit "camels_snap.hdf5"),
           kw "fof_name" (strLit "camels_subhalo.hdf5"),
           kw "physical" (boolLit true)]) (numLit "0"))
        "stars"),
      assign ["model"] (call (var "PacmanEmission")
        [kw "grid" (var "grid"),
         kw "tau_v" (numLit "0.7"),
         kw "dust_curve" (call (var "PowerLaw") [kw "slope" (numLit "-1.3")]),
         kw "dust_emission" (call (var "Blackbody")
           [kw "temperature" (binop "*" (numLit "50") (var "kelvin"))]),
         kw "fesc" (numLit "0.2"),
         kw "fesc_ly_alpha" (numLit "0.9")]),
      exprStmt (call (attrGet (var "stars") "get_spectra") [var "model"]),
      exprStmt (call (attrGet (var "stars") "get_lines")
        [tuple [attrGet (var "line_ratios") "Hb",
                attrGet (var "line_ratios") "O3r",
                attrGet (var "line_ratios") "O3b"],
         var "model"]),
      exprStmt (call (var "print")
        [subscript (attrGet (var "stars") "lines") (strLit "emergent")]),
      exprStmt (call (attrGet (var "stars") "get_particle_spectra") [var "model"]),
      exprStmt (call (attrGet (var "stars") "get_particle_lines")
        [tuple [attrGet (var "line_ratios") "Hb",
                attrGet (var "line_ratios") "O3r",
                attrGet (var "line_ratios") "O3b"],
         var "model"]),
      exprStmt (call (var "print")
        [subscript (attrGet (var "stars") "particle_lines") (strLit "emergent")]) ] ]

/-- The flat program of the galaxy-lines notebook. -/
def galaxyLinesProg : List Stmt := progOf galaxyLinesCells

mutual
/-- The variables read by an expression (f-strings read exactly their
interpolated variables). -/
def exprVars : Expr → List String
  | .numLit _ => []
  | .strLit _ => []
  | .boolLit _ => []
  | .noneLit => []
  | .var x => [x]
  | .attrGet obj _ => exprVars obj
  | .tuple es => exprVarsList es
  | .listLit es => exprVarsList es
  | .dictLit _ vs => exprVarsList vs
  | .call fn args => exprVars fn ++ exprVarsList args
  | .kw _ v => exprVars v
  | .subscript obj idx => exprVars obj ++ exprVars idx
  | .binop _ a b => exprVars a ++ exprVars b
  | .fmt reads => reads

def exprVarsList : List Expr → List String
  | [] => []
  | e :: es => exprVars e ++ exprVarsList es
end

/-- Variables of `e` not bound in `bound`. -/
def freeOf (bound : List String) (e : Expr) : List String :=
  (exprVars e).filter (fun v => !(bound.contains v))

mutual
/-- Sequential read/write analysis of a statement: given the names already
bound, return the free reads of the statement (reads of names not yet
bound at the point of the read) and the names bound afterwards. -/
def analyzeStmt (bound : List String) : Stmt → List String × List String
  | .imp _ binds => ([], bound ++ binds)
  | .assign ts rhs => (freeOf bound rhs, bound ++ ts)
  | .attrAssign obj _ rhs => (freeOf bound obj ++ freeOf bound rhs, bound)
  | .subscriptAssign obj idx rhs =>
      (freeOf bound obj ++ freeOf bound idx ++ freeOf bound rhs, bound)
  | .exprStmt e => (freeOf bound e, bound)
  | .forLoop vs iter body =>
      let i := freeOf bound iter
      let r := analyzeBlock (bound ++ vs) body
      (i ++ r.1, r.2)
  | .whileLoop c body =>
      let i := freeOf bound c
      let r := analyzeBlock bound body
      (i ++ r.1, r.2)
  | .ifStmt c t e =>
      let i := freeOf bound c
      let rt := analyzeBlock bound t
      let re := analyzeBlock bound e
      (i ++ rt.1 ++ re.1, bound)
  | .tryExcept b h =>
      let rb := analyzeBlock bound b
      let rh := analyzeBlock bound h
      (rb.1 ++ rh.1, bound)
  | .funcDef name _ _ => ([], bound ++ [name])
  | .classDef name _ => ([], bound ++ [name])

def analyzeBlock (bound : List String) : List Stmt → List String × List String
  | [] => ([], bound)
  | s :: rest =>
      let r1 := analyzeStmt bound s
      let r2 := analyzeBlock r1.2 rest
      (r1.1 ++ r2.1, r2.2)
end

/-- Names a cell reads from the module-level state left by earlier cells. -/
def cellFreeReads (c : Cell) : List String := (analyzeBlock [] c).1

/-- Names a cell binds at module level. -/
def cellBinds (c : Cell) : List String := (analyzeBlock [] c).2

/-- Check, cell by cell, that every module-level name a cell relies on was
bound by exactly one earlier cell (or is a Python builtin): no binding
relied upon by a later cell has been rebound in between. -/
def cellsIndependent : List Cell → List Cell → Bool
  | _, [] => true
  | earlier, c :: rest =>
      (cellFreeReads c).all (fun v =>
        builtinNames.contains v ||
        earlier.countP (fun c2 => (cellBinds c2).contains v) == 1)
      && cellsIndependent (earlier ++ [c]) rest

/-- No module-level binding is rebound and then relied upon by a later cell. -/
def noRebindReliance (cells : List Cell) : Bool := cellsIndependent [] cells

mutual
/-- No attribute assignment or subscript assignment occurs: the notebook
never mutates the internals of any object it did not define. -/
def noMutationStmt : Stmt → Bool
  | .attrAssign _ _ _ => false
  | .subscriptAssign _ _ _ => false
  | .forLoop _ _ body => noMutationBlock body
  | .whileLoop _ body => noMutationBlock body
  | .ifStmt _ t e => noMutationBlock t && noMutationBlock e
  | .tryExcept b h => noMutationBlock b && noMutationBlock h
  | .funcDef _ _ body => noMutationBlock body
  | .classDef _ body => noMutationBlock body
  | _ => true

def noMutationBlock : List Stmt → Bool
  | [] => true
  | s :: rest => noMutationStmt s && noMutationBlock rest
end

mutual
/-- Every attribute access in the expression is public (no leading
underscore, i.e. no reliance on an object's private representation). -/
def publicExpr : Expr → Bool
  | .numLit _ => true
  | .strLit _ => true
  | .boolLit _ => true
  | .noneLit => true
  | .var _ => true
  | .attrGet obj f => publicExpr obj && !(strStartsWith f "_")
  | .tuple es => publicExprList es
  | .listLit es => publicExprList es
  | .dictLit _ vs => publicExprList vs
  | .call fn args => publicExpr fn && publicExprList args
  | .kw _ v => publicExpr v
  | .subscript obj idx => publicExpr obj && publicExpr idx
  | .binop _ a b => publicExpr a && publicExpr b
  | .fmt _ => true

def publicExprList : List Expr → Bool
  | [] => true
  | e :: es => publicExpr e && publicExprList es
end

mutual
/-- The statement defines no class or function, performs no mutation of
object internals, and touches objects only through public attributes. -/
def publicOnlyStmt : Stmt → Bool
  | .imp _ _ => true
  | .assign _ rhs => publicExpr rhs
  | .attrAssign _ _ _ => false
  | .subscriptAssign _ _ _ => false
  | .exprStmt e => publicExpr e
  | .forLoop _ iter body => publicExpr iter && publicOnlyBlock body
  | .whileLoop c body => publicExpr c && publicOnlyBlock body
  | .ifStmt c t e => publicExpr c && publicOnlyBlock t && publicOnlyBlock e
  | .tryExcept b h => publicOnlyBlock b && publicOnlyBlock h
  | .funcDef _ _ _ => false
  | .classDef _ _ => false

def publicOnlyBlock : List Stmt → Bool
  | [] => true
  | s :: rest => publicOnlyStmt s && publicOnlyBlock rest
end

/-! Data loading (C3).  The library loader entry points are the `Grid`
constructor (directory keyword `grid_dir`) and `load_CAMELS_IllustrisTNG`
(directory as first positional argument).  We resolve directory arguments
through the straight-line constant environment and require them to lie
under the repository's `../../../tests/` fixture directory. -/

/-- Is `s` a path into the pre-existing test-data fixture directory? -/
def testsFixturePath (s : String) : Bool := strStartsWith s "../../../tests"

/-- First keyword argument named `name` among the call arguments. -/
def getKw (name : String) : List Expr → Option Expr
  | [] => none
  | .kw n v :: rest => if n == name then some v else getKw name rest
  | _ :: rest => getKw name rest

/-- Straight-line constant environment: each name is mapped to the string
literal last assigned to it, when that is what was assigned. -/
abbrev ConstEnv := List (String × Option String)

def lookupConst (env : ConstEnv) (x : String) : Option String :=
  match env.find? (fun p => p.1 == x) with
  | some p => p.2
  | none => none

/-- Resolve an argument expression to a string constant, if possible. -/
def resolveStr (env : ConstEnv) : Expr → Option String
  | .strLit s => some s
  | .var x => lookupConst env x
  | _ => none

/-- Does this loader call receive a fixture directory?  `true` for
non-loader calls. -/
def loaderCallOk (env : ConstEnv) (fn : Expr) (args : List Expr) : Bool :=
  match fn with
  | .var "Grid" =>
      match getKw "grid_dir" args with
      | some e =>
          match resolveStr env e with
          | some s => testsFixturePath s
          | none => false
      | none => false
  | .var "load_CAMELS_IllustrisTNG" =>
      match args with
      | e :: _ =>
          match resolveStr env e with
          | some s => testsFixturePath s
          | none => false
      | [] => false
  | _ => true

mutual
/-- Every loader call inside the expression receives a fixture directory. -/
def loadersOkExpr (env : ConstEnv) : Expr → Bool
  | .numLit _ => true
  | .strLit _ => true
  | .boolLit _ => true
  | .noneLit => true
  | .var _ => true
  | .attrGet obj _ => loadersOkExpr env obj
  | .tuple es => loadersOkList env es
  | .listLit es => loadersOkList env es
  | .dictLit _ vs => loadersOkList env vs
  | .call fn args => loadersOkExpr env fn && loadersOkList env args && loaderCallOk env fn args
  | .kw _ v => loadersOkExpr env v
  | .subscript obj idx => loadersOkExpr env obj && loadersOkExpr env idx
  | .binop _ a b => loadersOkExpr env a && loadersOkExpr env b
  | .fmt _ => true

def loadersOkList (env : ConstEnv) : List Expr → Bool
  | [] => true
  | e :: es => loadersOkExpr env e && loadersOkList env es
end

mutual
/-- Scan a statement, threading the constant environment, and check every
loader call in it. -/
def loadersOkStmt (env : ConstEnv) : Stmt → Bool × ConstEnv
  | .imp _ _ => (true, env)
  | .assign ts rhs =>
      let ok := loadersOkExpr env rhs
      let env2 :=
        match ts, rhs with
        | [x], .strLit s => (x, some s) :: env
        | _, _ => ts.map (fun x => (x, (none : Option String))) ++ env
      (ok, env2)
  | .attrAssign obj _ rhs => (loadersOkExpr env obj && loadersOkExpr env rhs, env)
  | .subscriptAssign obj idx rhs =>
      (loadersOkExpr env obj && loadersOkExpr env idx && loadersOkExpr env rhs, env)
  | .exprStmt e => (loadersOkExpr env e, env)
  | .forLoop vs iter body =>
      let ok := loadersOkExpr env iter
      let r := loadersOkBlock (vs.map (fun v => (v, (none : Option String))) ++ env) body
      (ok && r.1, r.2)
  | .whileLoop c body =>
      let ok := loadersOkExpr env c
      let r := loadersOkBlock env body
      (ok && r.1, r.2)
  | .ifStmt c t e =>
      let ok := loadersOkExpr env c
      let rt := loadersOkBlock env t
      let re := loadersOkBlock env e
      (ok && rt.1 && re.1, env)
  | .tryExcept b h =>
      let rb := loadersOkBlock env b
      let rh := loadersOkBlock env h
      (rb.1 && rh.1, env)
  | .funcDef _ _ body => ((loadersOkBlock env body).1, env)
  | .classDef _ body => ((loadersOkBlock env body).1, env)

def loadersOkBlock (env : ConstEnv) : List Stmt → Bool × ConstEnv
  | [] => (true, env)
  | s :: rest =>
      let r1 := loadersOkStmt env s
      let r2 := loadersOkBlock r1.2 rest
      (r1.1 && r2.1, r2.2)
end

/-- Every loader call in the program receives a fixture directory under
`../../../tests/`. -/
def loaderPathsOk (p : List Stmt) : Bool := (loadersOkBlock [] p).1

/-- Call shapes that would open or read a data file directly, bypassing
the library loaders. -/
def isDirectFileOp : Callee → Bool
  | .libFun f => ["open", "file", "memmap", "File"].contains f
  | .libMethod _ m => ["open", "File", "read", "write", "close", "readlines"].contains m
  | .np m => ["load", "loadtxt", "fromfile", "genfromtxt", "save", "savetxt", "memmap"].contains m
  | _ => false

/-- The library loader entry points. -/
def isLoaderCall : Callee → Bool
  | .libFun f => ["Grid", "load_CAMELS_IllustrisTNG"].contains f
  | _ => false

mutual
/-- All modules imported anywhere in a statement. -/
def importsOfStmt : Stmt → List String
  | .imp m _ => [m]
  | .forLoop _ _ body => importsOfBlock body
  | .whileLoop _ body => importsOfBlock body
  | .ifStmt _ t e => importsOfBlock t ++ importsOfBlock e
  | .tryExcept b h => importsOfBlock b ++ importsOfBlock h
  | .funcDef _ _ body => importsOfBlock body
  | .classDef _ body => importsOfBlock body
  | _ => []

def importsOfBlock : List Stmt → List String
  | [] => []
  | s :: rest => importsOfStmt s ++ importsOfBlock rest
end

/-- Modules whose import would introduce a CLI, wire protocol, or direct
file access. -/
def fileCliProtocolModules : List String :=
  ["argparse", "click", "sys", "socket", "struct", "subprocess",
   "http", "urllib", "requests", "pickle", "io", "os", "h5py", "csv", "json"]

/-- Modules whose import would introduce concurrency. -/
def concurrencyModules : List String :=
  ["threading", "multiprocessing", "asyncio", "concurrent", "concurrent.futures",
   "queue", "signal", "subprocess"]

/-- Callable names that would create a thread, process, or concurrent task. -/
def concurrencyNames : List String :=
  ["Thread", "Process", "Pool", "ThreadPoolExecutor", "ProcessPoolExecutor",
   "run", "create_task", "ensure_future", "gather", "start", "submit",
   "fork", "spawn", "start_new_thread", "run_coroutine_threadsafe", "map_async",
   "apply_async"]

/-- Does the call event create a thread, process, coroutine, or other
concurrent task?  Unclassifiable call shapes are conservatively flagged. -/
def isConcurrencyCall : Callee → Bool
  | .libFun f => concurrencyNames.contains f
  | .libMethod _ m => concurrencyNames.contains m
  | .builtin _ => false
  | .plt _ => false
  | .np _ => false
  | .listAppend _ => false
  | .opaqueCall => true

/-- Is this a matplotlib call?  Every such call creates or draws on a
plotted figure. -/
def isPltCall : Callee → Bool
  | .plt _ => true
  | _ => false

/-- Callable names that acquire an external resource when invoked: file
handles, network sockets and connections, locks and semaphores, temporary
files, pipes, and subprocesses. -/
def resourceAcquiringNames : List String :=
  ["open", "file", "socket", "connect", "bind", "listen", "accept",
   "Popen", "TemporaryFile", "NamedTemporaryFile", "mkstemp", "mkdtemp",
   "memmap", "Lock", "RLock", "Semaphore", "acquire", "pipe", "File",
   "urlopen", "request", "cursor"]

/-- Does the call event acquire an external resource?  Library data
loaders open and read a data file, every matplotlib call creates or draws
on a figure, numpy file I/O opens a file, and the listed callable names
acquire handles, sockets, locks, temporary files, or subprocesses.
Unclassifiable call shapes are conservatively flagged. -/
def acquiresResourceCall : Callee → Bool
  | .libFun f => isLoaderCall (.libFun f) || resourceAcquiringNames.contains f
  | .libMethod _ m => resourceAcquiringNames.contains m
  | .builtin _ => false
  | .plt _ => true
  | .np m => ["load", "loadtxt", "fromfile", "genfromtxt",
      "save", "savetxt", "memmap"].contains m
  | .listAppend _ => false
  | .opaqueCall => true

/-- The kinds of resource the claim permits the notebooks to acquire. -/
inductive Resource where
  | dataFile
  | figure
  deriving DecidableEq, Repr

/-- The permitted resource a call event acquires, if any: the library
loader entry points load a data file; matplotlib calls produce plotted
figures; no other call acquires a permitted resource. -/
def resourceOf (c : Callee) : Option Resource :=
  if isLoaderCall c then some .dataFile
  else if isPltCall c then some .figure
  else none

/-- Does the program call this library method on any object? -/
def callsLibMethod (p : List Stmt) (m : String) : Bool :=
  (blockEvents p).any fun c =>
    match c with
    | .libMethod _ m2 => m2 == m
    | _ => false

/-- Does the program call this top-level library callable? -/
def callsLibFun (p : List Stmt) (f : String) : Bool :=
  (blockEvents p).any fun c =>
    match c with
    | .libFun f2 => f2 == f
    | _ => false

/-- Does the program make any matplotlib call? -/
def usesPlotting (p : List Stmt) : Bool :=
  (blockEvents p).any fun c =>
    match c with
    | .plt _ => true
    | _ => false

/-- Does the program call the `print` builtin? -/
def usesPrint (p : List Stmt) : Bool :=
  (blockEvents p).any fun c =>
    match c with
    | .builtin b => b == "print"
    | _ => false

/-- Does the program import at least one `synthesizer` module? -/
def importsSynthesizer (p : List Stmt) : Bool :=
  (importsOfBlock p).any fun m => m == "synthesizer" || strStartsWith m "synthesizer."

/-! Spectra-before-lines ordering (C10).  The scan walks the galaxy-lines
notebook in execution order, tracking how many times the module-level
names `stars` and `model` have been (re)bound, and records every
`stars.get_spectra` / `get_lines` / `get_particle_spectra` /
`get_particle_lines` call carrying the current (stars, model) binding
generations. -/

/-- The component spectra/line methods tracked by the ordering scan. -/
def spectraLineMethods : List String :=
  ["get_spectra", "get_lines", "get_particle_spectra", "get_particle_lines"]

mutual
/-- Tracked method-call events inside an expression, tagged with the
current binding generations of `stars` and `model`. -/
def slExpr (sg mg : Nat) : Expr → List (Nat × Nat × String)
  | .numLit _ => []
  | .strLit _ => []
  | .boolLit _ => []
  | .noneLit => []
  | .var _ => []
  | .attrGet obj _ => slExpr sg mg obj
  | .tuple es => slExprList sg mg es
  | .listLit es => slExprList sg mg es
  | .dictLit _ vs => slExprList sg mg vs
  | .call fn args =>
      slExpr sg mg fn ++ slExprList sg mg args ++
      (match fn with
       | .attrGet (.var "stars") m =>
           if spectraLineMethods.contains m && (exprVarsList args).contains "model"
           then [(sg, mg, m)] else []
       | _ => [])
  | .kw _ v => slExpr sg mg v
  | .subscript obj idx => slExpr sg mg obj ++ slExpr sg mg idx
  | .binop _ a b => slExpr sg mg a ++ slExpr sg mg b
  | .fmt _ => []

def slExprList (sg mg : Nat) : List Expr → List (Nat × Nat × String)
  | [] => []
  | e :: es => slExpr sg mg e ++ slExprList sg mg es
end

/-- Scan state: binding generations of `stars` and `model`, and the events
recorded so far. -/
structure SLState where
  starsGen : Nat
  modelGen : Nat
  events : List (Nat × Nat × String)

mutual
def slStmt (st : SLState) : Stmt → SLState
  | .imp _ binds =>
      { starsGen := if binds.contains "stars" then st.starsGen + 1 else st.starsGen,
        modelGen := if binds.contains "model" then st.modelGen + 1 else st.modelGen,
        events := st.events }
  | .assign ts rhs =>
      let evs := slExpr st.starsGen st.modelGen rhs
      { starsGen := if ts.contains "stars" then st.starsGen + 1 else st.starsGen,
        modelGen := if ts.contains "model" then st.modelGen + 1 else st.modelGen,
        events := st.events ++ evs }
  | .attrAssign obj _ rhs =>
      { st with events := st.events ++ slExpr st.starsGen st.modelGen obj
          ++ slExpr st.starsGen st.modelGen rhs }
  | .subscriptAssign obj idx rhs =>
      { st with events := st.events ++ slExpr st.starsGen st.modelGen obj
          ++ slExpr st.starsGen st.modelGen idx ++ slExpr st.starsGen st.modelGen rhs }
  | .exprStmt e =>
      { st with events := st.events ++ slExpr st.starsGen st.modelGen e }
  | .forLoop _ iter body =>
      slBlock { st with events := st.events ++ slExpr st.starsGen st.modelGen iter } body
  | .whileLoop c body =>
      slBlock { st with events := st.events ++ slExpr st.starsGen st.modelGen c } body
  | .ifStmt c t e =>
      let st2 := { st with events := st.events ++ slExpr st.starsGen st.modelGen c }
      slBlock (slBlock st2 t) e
  | .tryExcept b h => slBlock (slBlock st b) h
  | .funcDef _ _ _ => st
  | .classDef _ _ => st

def slBlock (st : SLState) : List Stmt → SLState
  | [] => st
  | s :: rest => slBlock (slStmt st s) rest
end

/-- The tracked spectra/line calls of a program, in execution order. -/
def spectraLineEvents (p : List Stmt) : List (Nat × Nat × String) :=
  (slBlock ⟨0, 0, []⟩ p).events

/-- Every occurrence of method `lineM` is preceded by an occurrence of
method `specM` carrying the same (stars, model) binding generations. -/
def precededBySameGen (lineM specM : String) : List (Nat × Nat × String) →
    List (Nat × Nat × String) → Bool
  | _, [] => true
  | seen, (sg, mg, m) :: rest =>
      (if m == lineM then seen.contains (sg, mg, specM) else true)
      && precededBySameGen lineM specM (seen ++ [(sg, mg, m)]) rest

/-- The spectra-before-lines discipline over a program's tracked calls. -/
def spectraBeforeLines (p : List Stmt) : Bool :=
  precededBySameGen "get_lines" "get_spectra" [] (spectraLineEvents p) &&
  precededBySameGen "get_particle_lines" "get_particle_spectra" [] (spectraLineEvents p)

/-! Abstract-library embeddings of the two data-dependent loops of the
grid-lines notebook (C8, C9).  Library values are opaque type parameters;
the loops are embedded by explicit state passing, mirroring the Python
statement for statement. -/

/-- The slice of the library interface used by the R23 metallicity loop:
the metallicity axis of the grid, `grid.get_lines` on a grid point, and
`LineCollection.get_ratio`. -/
structure R23Env (M LC R : Type) where
  metallicity : List M
  get_lines : Nat × Nat → LC
  get_ratio : LC → String → R

/-- The R23 metallicity loop of the grid-lines notebook (cell 11,
src/unnamed/part_000 lines 248-254):
`ratio_id = "R23"; ia = 0; ratios = []`, then
`for iZ, Z in enumerate(grid.metallicity): grid_point = (ia, iZ);
lines = grid.get_lines(grid_point); ratios.append(lines.get_ratio(ratio_id))`.
`enumerate` is embedded as a fold over the indices of `metallicity`. -/
def r23Loop {M LC R : Type} (env : R23Env M LC R) : List R :=
  let ratio_id := "R23"
  let ia := 0
  (List.range env.metallicity.length).foldl
    (fun ratios iZ =>
      let grid_point := (ia, iZ)
      let lines := env.get_lines grid_point
      ratios ++ [env.get_ratio lines ratio_id])
    []

/-- The slice of the library interface used by the BPT diagram loop. -/
structure BPTEnv (M LC X Y : Type) where
  metallicity : List M
  get_lines : Nat × Nat → LC
  get_diagram : LC → String → X × Y

/-- One iteration of the BPT diagram loop body (cell 12,
src/unnamed/part_000 lines 290-295): `grid_point = (ia, iZ);
lines = grid.get_lines(grid_point); x_, y_ = lines.get_diagram(diagram_id);
x.append(x_); y.append(y_)`, with `diagram_id = "BPT-NII"` and `ia = 0`. -/
def bptStep {M LC X Y : Type} (env : BPTEnv M LC X Y)
    (st : List X × List Y) (iZ : Nat) : List X × List Y :=
  let diagram_id := "BPT-NII"
  let ia := 0
  let grid_point := (ia, iZ)
  let lines := env.get_lines grid_point
  let xy := env.get_diagram lines diagram_id
  (st.1 ++ [xy.1], st.2 ++ [xy.2])

/-- The state of the lists `x` and `y` after the first `k` iterations of
the BPT diagram loop. -/
def bptAfter {M LC X Y : Type} (env : BPTEnv M LC X Y) (k : Nat) :
    List X × List Y :=
  (List.range k).foldl (bptStep env) ([], [])

/-- The BPT diagram loop of the grid-lines notebook: all iterations,
one per element of `grid.metallicity`. -/
def bptLoop {M LC X Y : Type} (env : BPTEnv M LC X Y) : List X × List Y :=
  bptAfter env env.metallicity.length


/-- A concrete environment oracle in which every loop runs `n` iterations
and every branch takes its then-side. -/
def oracleK (n : Nat) : Oracle := ⟨fun _ => n, fun _ => true⟩

/-! Helper lemmas about the trace and exception semantics. -/

/-- Every event of a statement's trace occurs syntactically in it. -/
theorem mem_stmtEvents_of_mem_stmtTrace (o : Oracle) (e : Callee) :
    ∀ s, e ∈ stmtTrace o s → e ∈ stmtEvents s := by
  refine stmtTrace.induct o _
    (fun p => e ∈ blockTrace o p → e ∈ blockEvents p)
    ?_ ?_ ?_ ?_ ?_ ?_ ?_ ?_ ?_ ?_ ?_ ?_ ?_ <;>
    intros <;>
    simp_all [stmtTrace, blockTrace, stmtEvents, blockEvents,
      List.mem_flatten, List.mem_replicate] <;>
    aesop

/-- Every event of a program's trace occurs syntactically in the program. -/
theorem mem_blockEvents_of_mem_blockTrace (o : Oracle) (e : Callee) :
    ∀ p, e ∈ blockTrace o p → e ∈ blockEvents p := by
  intro p
  induction p with
  | nil => simp [blockTrace, blockEvents]
  | cons s rest ih =>
      simp only [blockTrace, blockEvents, List.mem_append]
      rintro (h | h)
      · exact Or.inl (mem_stmtEvents_of_mem_stmtTrace o e s h)
      · exact Or.inr (ih h)

/-- A `Bool`-valued predicate holding on all syntactic events of a program
holds on every event of every trace of the program. -/
theorem blockTrace_all_of_blockEvents_all (p : List Stmt) (f : Callee → Bool)
    (h : (blockEvents p).all f = true) :
    ∀ o : Oracle, (blockTrace o p).all f = true := by
  intro o
  rw [List.all_eq_true] at h ⊢
  intro e he
  exact h e (mem_blockEvents_of_mem_blockTrace o e p he)

/-- The trace of a straight-line statement does not depend on the oracle. -/
theorem stmtTrace_oracle_irrel (o o' : Oracle) :
    ∀ s, straightStmt s = true → stmtTrace o s = stmtTrace o' s := by
  refine stmtTrace.induct o _
    (fun p => straightBlock p = true → blockTrace o p = blockTrace o' p)
    ?_ ?_ ?_ ?_ ?_ ?_ ?_ ?_ ?_ ?_ ?_ ?_ ?_ <;>
    intros <;>
    simp_all [straightStmt, straightBlock, stmtTrace, blockTrace]

/-- The trace of a straight-line program does not depend on the oracle. -/
theorem blockTrace_oracle_irrel (o o' : Oracle) :
    ∀ p, straightBlock p = true → blockTrace o p = blockTrace o' p := by
  intro p
  induction p with
  | nil => simp [blockTrace]
  | cons s rest ih =>
      intro h
      simp only [straightBlock, Bool.and_eq_true] at h
      simp only [blockTrace, stmtTrace_oracle_irrel o o' s h.1, ih h.2]

theorem propagate_nil (raises : Callee → Bool) : propagate raises [] = .ok [] := rfl

theorem propagate_append (raises : Callee → Bool) (a b : List Callee) :
    propagate raises (a ++ b) = seqE (propagate raises a) (propagate raises b) := by
  simp only [propagate, List.find?_append]
  cases ha : a.find? raises with
  | some e => simp [seqE, Option.orElse]
  | none =>
      cases hb : b.find? raises with
      | some e => simp [seqE, Option.orElse]
      | none => simp [seqE, Option.orElse]

/-- Repeating the abort-at-first-raise outcome of an event list `n` times
is the abort-at-first-raise outcome of the `n`-fold repetition. -/
theorem repeatE_propagate (raises : Callee → Bool) (n : Nat) (l : List Callee) :
    repeatE n (propagate raises l) = propagate raises (List.replicate n l).flatten := by
  induction n with
  | zero => simp [repeatE, List.replicate, propagate]
  | succ n ih => simp [repeatE, List.replicate_succ, propagate_append, ih]

/-- In a statement without `try`/`except`, any exception raised by a call
propagates unchanged: the interpreter's outcome is exactly the
first-raising-call-aborts behaviour on the statement's trace. -/
theorem runStmt_eq_propagate (raises : Callee → Bool) (o : Oracle) :
    ∀ s, noTryStmt s = true →
      runStmt raises o s = propagate raises (stmtTrace o s) := by
  refine runStmt.induct raises o _
    (fun p => noTryBlock p = true →
      runBlock raises o p = propagate raises (blockTrace o p))
    ?_ ?_ ?_ ?_ ?_ ?_ ?_ ?_ ?_ ?_ ?_ ?_ ?_ ?_ <;>
    intros <;>
    simp_all [noTryStmt, noTryBlock, runStmt, runBlock, stmtTrace,
      blockTrace, propagate_append, propagate_nil, repeatE_propagate] <;>
    (try (split <;> simp_all [propagate_append]))

/-- In a program without `try`/`except`, any exception raised by a call
propagates unchanged and halts the program. -/
theorem runBlock_eq_propagate (raises : Callee → Bool) (o : Oracle) :
    ∀ p, noTryBlock p = true →
      runBlock raises o p = propagate raises (blockTrace o p) := by
  intro p
  induction p with
  | nil => simp [runBlock, blockTrace, propagate]
  | cons s rest ih =>
      intro h
      simp only [noTryBlock, Bool.and_eq_true] at h
      simp only [runBlock, blockTrace, propagate_append,
        runStmt_eq_propagate raises o s h.1, ih h.2]


/-! The claims. -/

/-- C1 (counterexample): the claim says every notebook's embedded program
is extensionally equal to a loop-free, branch-free straight-line sequence
of library and plotting calls.  This fails for the grid-lines notebook:
its call trace varies with the length of `grid.metallicity` (enumerated by
its loops), whereas a straight-line program's trace is the same under
every environment oracle, so no straight-line program is trace-equivalent
to it. -/
theorem C1_counterexample :
    ¬ ∃ q : List Stmt, straightBlock q = true ∧
        ∀ o : Oracle, blockTrace o q = blockTrace o gridLinesProg := by
  rintro ⟨q, hq, hext⟩
  have h01 : blockTrace (oracleK 0) gridLinesProg
      = blockTrace (oracleK 1) gridLinesProg := by
    rw [← hext (oracleK 0), ← hext (oracleK 1)]
    exact blockTrace_oracle_irrel (oracleK 0) (oracleK 1) q hq
  have hne : blockTrace (oracleK 0) gridLinesProg
      ≠ blockTrace (oracleK 1) gridLinesProg := by decide
  exact hne h01

/-- C1 (amended): every notebook is branch-free, with bounded `for` loops
over library-provided collections as the only control flow; the
galaxy-factory and galaxy-lines notebooks are fully straight-line — under
every environment oracle their executions are the fixed sequence of their
syntactic calls — and the grid-lines notebook contains exactly three such
loops and is otherwise straight-line. -/
theorem C1_amended_straight_line_up_to_for_loops :
    branchFreeBlock gridLinesProg = true ∧
    branchFreeBlock galaxyFactoryProg = true ∧
    branchFreeBlock galaxyLinesProg = true ∧
    straightBlock galaxyFactoryProg = true ∧
    straightBlock galaxyLinesProg = true ∧
    forLoopCountBlock gridLinesProg = 3 ∧
    (∀ o : Oracle, blockTrace o galaxyFactoryProg = blockEvents galaxyFactoryProg) ∧
    (∀ o : Oracle, blockTrace o galaxyLinesProg = blockEvents galaxyLinesProg) := by
  refine ⟨by decide, by decide, by decide, by decide, by decide, by decide, ?_, ?_⟩ <;>
    intro o <;>
    rw [blockTrace_oracle_irrel o (oracleK 0) _ (by decide)] <;>
    decide

/-- C2: no notebook contains a try/except, and in every notebook any
exception raised by a call propagates unchanged and halts execution: under
every raising behaviour and every environment oracle, the interpreter's
outcome on each notebook is exactly the first-raising-call-aborts
behaviour of the notebook's call trace. -/
theorem C2_exceptions_propagate_unchanged :
    (noTryBlock gridLinesProg = true ∧
     noTryBlock galaxyFactoryProg = true ∧
     noTryBlock galaxyLinesProg = true) ∧
    ∀ (raises : Callee → Bool) (o : Oracle),
      runBlock raises o gridLinesProg
        = propagate raises (blockTrace o gridLinesProg) ∧
      runBlock raises o galaxyFactoryProg
        = propagate raises (blockTrace o galaxyFactoryProg) ∧
      runBlock raises o galaxyLinesProg
        = propagate raises (blockTrace o galaxyLinesProg) := by
  refine ⟨⟨by decide, by decide, by decide⟩, fun raises o => ⟨?_, ?_, ?_⟩⟩ <;>
    exact runBlock_eq_propagate raises o _ (by decide)

/-- C3: every external data load goes through the `Grid` constructor or
`load_CAMELS_IllustrisTNG` applied to fixture paths under `../../../tests/`
(resolved through the notebooks' constant bindings); each notebook really
performs such loader calls; no notebook opens a data file directly; and no
notebook imports a module that would provide a file format, wire protocol,
or CLI. -/
theorem C3_loads_via_library_loaders :
    (loaderPathsOk gridLinesProg = true ∧
     loaderPathsOk galaxyFactoryProg = true ∧
     loaderPathsOk galaxyLinesProg = true) ∧
    (callsLibFun gridLinesProg "Grid" = true ∧
     callsLibFun galaxyFactoryProg "Grid" = true ∧
     callsLibFun galaxyLinesProg "Grid" = true ∧
     callsLibFun galaxyLinesProg "load_CAMELS_IllustrisTNG" = true) ∧
    ((blockEvents gridLinesProg).all (fun c => !isDirectFileOp c) = true ∧
     (blockEvents galaxyFactoryProg).all (fun c => !isDirectFileOp c) = true ∧
     (blockEvents galaxyLinesProg).all (fun c => !isDirectFileOp c) = true) ∧
    ((importsOfBlock gridLinesProg).all
        (fun m => !(fileCliProtocolModules.contains m)) = true ∧
     (importsOfBlock galaxyFactoryProg).all
        (fun m => !(fileCliProtocolModules.contains m)) = true ∧
     (importsOfBlock galaxyLinesProg).all
        (fun m => !(fileCliProtocolModules.contains m)) = true) := by
  decide

/-- C4: execution of every notebook is single-threaded and synchronous:
no notebook imports a concurrency module; under every environment oracle,
at no step of any notebook's trace is a thread, process, coroutine, or
other concurrent task created; at every step, any resource the notebook
acquires is a loaded data file (a library loader call) or a plotted
figure (a matplotlib call) — never a socket, lock, temporary file,
subprocess, or directly opened file; and such load and plot steps really
occur. -/
theorem C4_single_threaded_and_limited_resources :
    ((importsOfBlock gridLinesProg).all
        (fun m => !(concurrencyModules.contains m)) = true ∧
     (importsOfBlock galaxyFactoryProg).all
        (fun m => !(concurrencyModules.contains m)) = true ∧
     (importsOfBlock galaxyLinesProg).all
        (fun m => !(concurrencyModules.contains m)) = true) ∧
    (∀ o : Oracle,
      (blockTrace o gridLinesProg).all (fun c => !isConcurrencyCall c) = true ∧
      (blockTrace o galaxyFactoryProg).all (fun c => !isConcurrencyCall c) = true ∧
      (blockTrace o galaxyLinesProg).all (fun c => !isConcurrencyCall c) = true) ∧
    (∀ o : Oracle,
      (blockTrace o gridLinesProg).all
        (fun c => !(acquiresResourceCall c) || (resourceOf c).isSome) = true ∧
      (blockTrace o galaxyFactoryProg).all
        (fun c => !(acquiresResourceCall c) || (resourceOf c).isSome) = true ∧
      (blockTrace o galaxyLinesProg).all
        (fun c => !(acquiresResourceCall c) || (resourceOf c).isSome) = true) ∧
    ((blockEvents gridLinesProg).any (fun c => isLoaderCall c) = true ∧
     (blockEvents gridLinesProg).any (fun c => isPltCall c) = true ∧
     (blockEvents galaxyLinesProg).any (fun c => isLoaderCall c) = true) := by
  refine ⟨⟨by decide, by decide, by decide⟩, fun o => ⟨?_, ?_, ?_⟩,
    fun o => ⟨?_, ?_, ?_⟩, by decide⟩ <;>
    exact blockTrace_all_of_blockEvents_all _ _ (by decide) o

/-- C5: the notebooks define no class or function of their own, never
assign to an attribute or subscript of any object, and access library
objects only through public attributes and method calls (no name with a
leading underscore); and this is not vacuous — each notebook does perform
such calls. -/
theorem C5_public_interface_only :
    publicOnlyBlock gridLinesProg = true ∧
    publicOnlyBlock galaxyFactoryProg = true ∧
    publicOnlyBlock galaxyLinesProg = true ∧
    (blockEvents gridLinesProg).isEmpty = false ∧
    (blockEvents galaxyFactoryProg).isEmpty = false ∧
    (blockEvents galaxyLinesProg).isEmpty = false := by
  decide

/-- C6 (counterexample): the claim says every notebook computes via
`get_line`/`get_lines`/`get_ratio`/`get_diagram` and renders each computed
result via a plotting-library call.  This fails: the galaxy-lines notebook
computes line collections but makes no plotting call at all, and the
galaxy-factory notebook calls none of the four named methods. -/
theorem C6_counterexample :
    usesPlotting galaxyLinesProg = false ∧
    callsLibMethod galaxyLinesProg "get_lines" = true ∧
    usesPlotting galaxyFactoryProg = false ∧
    callsLibMethod galaxyFactoryProg "get_line" = false ∧
    callsLibMethod galaxyFactoryProg "get_lines" = false ∧
    callsLibMethod galaxyFactoryProg "get_ratio" = false ∧
    callsLibMethod galaxyFactoryProg "get_diagram" = false := by
  decide

/-- C6 (amended): every notebook imports `synthesizer` modules; the
grid-lines notebook computes via `get_line`, `get_lines`, `get_ratio` and
`get_diagram` and renders results with matplotlib; the galaxy-lines
notebook computes via `get_lines`/`get_particle_lines` and renders via
`print` with no plotting; and the galaxy-factory notebook builds objects
via the library's `Galaxy` factory and `sample_sfhz` and renders via
`print` with no plotting. -/
theorem C6_amended_methods_and_rendering :
    (importsSynthesizer gridLinesProg = true ∧
     importsSynthesizer galaxyFactoryProg = true ∧
     importsSynthesizer galaxyLinesProg = true) ∧
    (callsLibMethod gridLinesProg "get_line" = true ∧
     callsLibMethod gridLinesProg "get_lines" = true ∧
     callsLibMethod gridLinesProg "get_ratio" = true ∧
     callsLibMethod gridLinesProg "get_diagram" = true ∧
     usesPlotting gridLinesProg = true) ∧
    (callsLibMethod galaxyLinesProg "get_lines" = true ∧
     callsLibMethod galaxyLinesProg "get_particle_lines" = true ∧
     usesPrint galaxyLinesProg = true ∧
     usesPlotting galaxyLinesProg = false) ∧
    (callsLibFun galaxyFactoryProg "Galaxy" = true ∧
     callsLibFun galaxyFactoryProg "sample_sfhz" = true ∧
     usesPrint galaxyFactoryProg = true ∧
     usesPlotting galaxyFactoryProg = false) := by
  decide

/-- C7: the notebooks keep no mutable global state of their own: no
module-level name that a cell reads from earlier cells has been bound by
more than one earlier cell (so nothing relied upon was rebound in
between), and no notebook mutates an object through attribute or
subscript assignment. -/
theorem C7_no_rebound_global_state :
    (noRebindReliance gridLinesCells = true ∧
     noRebindReliance galaxyFactoryCells = true ∧
     noRebindReliance galaxyLinesCells = true) ∧
    (noMutationBlock gridLinesProg = true ∧
     noMutationBlock galaxyFactoryProg = true ∧
     noMutationBlock galaxyLinesProg = true) := by
  decide

/-- Folding append-of-singleton over a list builds its map. -/
theorem foldl_append_singleton {A B : Type} (f : A → B) :
    ∀ (l : List A) (acc : List B),
      l.foldl (fun r x => r ++ [f x]) acc = acc ++ l.map f := by
  intro l
  induction l with
  | nil => simp
  | cons a t ih => intro acc; simp [ih]

/-- The R23 loop produces exactly the ratio of the lines at age index 0
and each metallicity index, in metallicity order. -/
theorem r23Loop_eq_map {M LC R : Type} (env : R23Env M LC R) :
    r23Loop env = (List.range env.metallicity.length).map
      (fun iZ => env.get_ratio (env.get_lines (0, iZ)) "R23") := by
  show (List.range env.metallicity.length).foldl
      (fun ratios iZ => ratios ++ [env.get_ratio (env.get_lines (0, iZ)) "R23"]) []
    = (List.range env.metallicity.length).map
      (fun iZ => env.get_ratio (env.get_lines (0, iZ)) "R23")
  rw [foldl_append_singleton]
  simp

/-- C8: after the R23 metallicity loop of the grid-lines notebook, the
list `ratios` has exactly one entry per element of `grid.metallicity`, and
its i-th entry is `grid.get_lines((0, i)).get_ratio("R23")`, so `ratios`
is index-aligned with `grid.metallicity` as plotted. -/
theorem C8_r23_ratios_aligned {M LC R : Type} (env : R23Env M LC R) :
    (r23Loop env).length = env.metallicity.length ∧
    ∀ i, ∀ h : i < (r23Loop env).length,
      (r23Loop env).get ⟨i, h⟩ = env.get_ratio (env.get_lines (0, i)) "R23" := by
  have hmap := r23Loop_eq_map env
  refine ⟨by simp [hmap], fun i h => ?_⟩
  have h2 : i < env.metallicity.length := by simpa [hmap] using h
  simp [hmap, List.get_eq_getElem]

/-- A concrete instantiation of the R23 library interface, used to witness
C8: two metallicities, `get_lines` returning the grid point itself and
`get_ratio` pairing it with the requested ratio id. -/
def r23DemoEnv : R23Env Nat (Nat × Nat) ((Nat × Nat) × String) :=
  ⟨[5, 7], fun p => p, fun lc s => (lc, s)⟩

/-- C8 witness: the theorem applied to a concrete two-metallicity
environment at index 0. -/
theorem C8_r23_ratios_aligned_witness :
    (r23Loop r23DemoEnv).length = r23DemoEnv.metallicity.length ∧
    (r23Loop r23DemoEnv).get ⟨0, by decide⟩
      = r23DemoEnv.get_ratio (r23DemoEnv.get_lines (0, 0)) "R23" := by
  have h := C8_r23_ratios_aligned r23DemoEnv
  exact ⟨h.1, h.2 0 (by decide)⟩

/-- The lengths of `x` and `y` after `k` iterations of the BPT loop. -/
theorem bptAfter_lengths {M LC X Y : Type} (env : BPTEnv M LC X Y) :
    ∀ k, (bptAfter env k).1.length = k ∧ (bptAfter env k).2.length = k := by
  intro k
  induction k with
  | zero => simp [bptAfter]
  | succ n ih =>
      have : bptAfter env (n + 1) = bptStep env (bptAfter env n) n := by
        simp [bptAfter, List.range_succ]
      rw [this]
      simp [bptStep]
      omega

/-- C9: the lists `x` and `y` of the BPT diagram loop have equal length
after every iteration (each iteration appends exactly one element to
each), and at loop exit both have length equal to the number of grid
metallicities, so the plotted x/y pairs are aligned. -/
theorem C9_bpt_xy_aligned {M LC X Y : Type} (env : BPTEnv M LC X Y) :
    (∀ k, (bptAfter env k).1.length = (bptAfter env k).2.length ∧
          (bptAfter env k).1.length = k) ∧
    (bptLoop env).1.length = env.metallicity.length ∧
    (bptLoop env).2.length = env.metallicity.length := by
  refine ⟨fun k => ?_, ?_, ?_⟩
  · have h := bptAfter_lengths env k
    exact ⟨h.1.trans h.2.symm, h.1⟩
  · exact (bptAfter_lengths env env.metallicity.length).1
  · exact (bptAfter_lengths env env.metallicity.length).2

/-- C10: in the galaxy-lines notebook, relative to the current bindings of
`stars` and `model`, `get_spectra(model)` is always invoked before
`get_lines(..., model)`, and `get_particle_spectra(model)` before
`get_particle_lines(..., model)`; the notebook's tracked spectra/line
calls are exactly the six listed events, in this order. -/
theorem C10_spectra_before_lines :
    spectraBeforeLines galaxyLinesProg = true ∧
    spectraLineEvents galaxyLinesProg =
      [(1, 1, "get_spectra"), (1, 1, "get_lines"),
       (2, 2, "get_spectra"), (2, 2, "get_lines"),
       (2, 2, "get_particle_spectra"), (2, 2, "get_particle_lines")] := by
  decide


end Synth
